import Mathlib

/-!
Verification of the FaaSr workflow-monitor specification against the
repository's code.  The object-store accessor (`framework/s3_client.py`,
`framework/utils/throttled_client.py`) is embedded from the source.  The
function agent, workflow runner and log tailer modules are not present in the
repository snapshot (only their test suites are), so those parts are modelled
from the specification text, as marked in the doc comments.
-/

namespace FaaSrIT

/-- Outcome of a raw boto3 request: a successful value, a botocore
`ClientError` carrying an error code and rendered message, or any other
exception. -/
inductive BotoResult (α : Type) where
  | ok (value : α)
  | clientError (code : String) (message : String)
  | exn (message : String)
deriving Repr, DecidableEq

/-- The piece of the boto3 S3 client surface used by `FaaSrS3Client`:
`head_object` (modelled on the key only, the bucket being fixed at
construction) and `get_object` (the value is the already-decoded body text). -/
structure BotoS3Client where
  headObject : String → BotoResult Unit
  getObject : String → BotoResult String

/-- An exception surfaced to the caller of `FaaSrS3Client.object_exists` or
`FaaSrS3Client.get_object`: the accessor's own `S3ClientError` with its
message, the standard-library `queue.Empty` raised by
`queue.Queue.get(timeout=...)` when no token becomes free in time, or some
other uncaught exception. -/
inductive PyException where
  | s3ClientError (message : String)
  | queueEmptyExc
  | otherExc (message : String)
deriving Repr, DecidableEq

/-- Embeds `FaaSrS3Client._object_exists`: `head_object` success returns
`true`; a `ClientError` with code `"404"` returns `false`; any other
`ClientError` raises `S3ClientError("Error checking object existence: ...")`.
A non-`ClientError` exception is not caught there and propagates as is. -/
def innerObjectExists (client : BotoS3Client) (key : String) :
    Except PyException Bool :=
  match client.headObject key with
  | .ok _ => .ok true
  | .clientError code msg =>
      if code = "404" then .ok false
      else .error (.s3ClientError ("Error checking object existence: " ++ msg))
  | .exn msg => .error (.otherExc msg)

/-- Embeds `FaaSrS3Client._get_object`: success returns the decoded body; a
`ClientError` with code `"NoSuchKey"` raises
`S3ClientError("Object does not exist: ...")`; any other `ClientError` raises
`S3ClientError("boto3 client error getting object: ...")`; any other exception
raises `S3ClientError("Unhandled error getting object: ...")`. -/
def innerGetObject (client : BotoS3Client) (key : String) :
    Except PyException String :=
  match client.getObject key with
  | .ok body => .ok body
  | .clientError code msg =>
      if code = "NoSuchKey" then
        .error (.s3ClientError ("Object does not exist: " ++ msg))
      else
        .error (.s3ClientError ("boto3 client error getting object: " ++ msg))
  | .exn msg => .error (.s3ClientError ("Unhandled error getting object: " ++ msg))

/-- Embeds the `self._queue.get(timeout=self._timeout)` step of
`FaaSrS3Client._call`.  The state is the number of tokens currently in the
queue; the model assumes no other thread returns a token during the wait, so
with zero free tokens the `get` call times out and no token is acquired, and
otherwise exactly one token is removed, leaving `n` in the pool while the
backend request is in flight. -/
def tokensDuringRequest (freeTokens : Nat) : Option Nat :=
  match freeTokens with
  | 0 => none
  | n + 1 => some n

/-- Embeds `FaaSrS3Client._call`: pull a token from the queue (a timed-out
`get` raises the standard-library `queue.Empty`, which the source does not
catch), run the wrapped function, and return the token in a `finally` block on
every exit path.  Returns the call outcome together with the number of tokens
in the queue afterwards. -/
def callWithTokens {α : Type} (freeTokens : Nat) (inner : Except PyException α) :
    Except PyException α × Nat :=
  match tokensDuringRequest freeTokens with
  | none => (.error .queueEmptyExc, freeTokens)
  | some n => (inner, n + 1)

/-- Embeds `FaaSrS3Client.object_exists`, which delegates to `_call` with
`_object_exists`. -/
def faasrObjectExists (freeTokens : Nat) (client : BotoS3Client) (key : String) :
    Except PyException Bool × Nat :=
  callWithTokens freeTokens (innerObjectExists client key)

/-- Embeds `FaaSrS3Client.get_object`, which delegates to `_call` with
`_get_object`. -/
def faasrGetObject (freeTokens : Nat) (client : BotoS3Client) (key : String) :
    Except PyException String × Nat :=
  callWithTokens freeTokens (innerGetObject client key)

/-- One entry of the payload's `DataStores` mapping.  A field is `none` when
the corresponding key is absent from the dictionary. -/
structure DataStoreConfig where
  endpoint : Option String := none
  bucket : Option String := none
  region : Option String := none
deriving Repr, DecidableEq

/-- The part of the workflow payload read by `FaaSrS3Client.__init__`.
`none` models an absent key. -/
structure WorkflowData where
  defaultDataStore : Option String := none
  dataStores : Option (List (String × DataStoreConfig)) := none
deriving Repr, DecidableEq

/-- Dictionary lookup in the `DataStores` mapping. -/
def lookupStore (stores : List (String × DataStoreConfig)) (name : String) :
    Option DataStoreConfig :=
  match stores.find? (fun p => p.1 = name) with
  | some p => some p.2
  | none => none

/-- Python truthiness of `datastore_config.get("Endpoint")`: an absent key or
an empty string is falsy. -/
def truthyOpt : Option String → Bool
  | some s => decide (s ≠ "")
  | none => false

/-- `S3ClientInitializationError` as raised by `FaaSrS3Client.__init__`; the
constructor's `except KeyError` branch produces the `Key error` message with
the offending key. -/
inductive S3ClientInitializationError where
  | keyError (key : String)
deriving Repr, DecidableEq

/-- The fields of a constructed `FaaSrS3Client` relevant here: the boto3
client configuration, the bucket name, and the token queue and timeout. -/
structure FaaSrS3ClientState where
  endpointUrl : Option String
  regionName : String
  bucketName : String
  freeTokens : Nat
  timeout : Nat
deriving Repr, DecidableEq

/-- The class attribute `FaaSrS3Client.default_queue_size`. -/
def defaultQueueSize : Nat := 10

/-- The class attribute `FaaSrS3Client.default_timeout`. -/
def defaultTimeout : Nat := 20

/-- The tail of `FaaSrS3Client.__init__` once the datastore config is in
hand: the `Region` and `Bucket` accesses raise `KeyError` when absent, the
endpoint is used only when truthy, and the queue is always filled with
`default_queue_size` tokens with the wait budget at `default_timeout` — the
constructor takes no parameter for either. -/
def initFromConfig (cfg : DataStoreConfig) :
    Except S3ClientInitializationError FaaSrS3ClientState :=
  match cfg.region with
  | none => .error (.keyError "Region")
  | some region =>
    match cfg.bucket with
    | none => .error (.keyError "Bucket")
    | some bucket =>
      .ok { endpointUrl := if truthyOpt cfg.endpoint then cfg.endpoint else none
            regionName := region
            bucketName := bucket
            freeTokens := defaultQueueSize
            timeout := defaultTimeout }

/-- The datastore-selection step of `FaaSrS3Client.__init__`:
`workflow_data["DataStores"][default_datastore]` raises `KeyError` naming the
datastore when the entry is absent. -/
def initFromStores (stores : List (String × DataStoreConfig)) (name : String) :
    Except S3ClientInitializationError FaaSrS3ClientState :=
  match lookupStore stores name with
  | none => .error (.keyError name)
  | some cfg => initFromConfig cfg

/-- Embeds `FaaSrS3Client.__init__`.  `workflow_data.get("DefaultDataStore",
"S3")` falls back to `"S3"` when the key is absent; `workflow_data
["DataStores"]` raises `KeyError` when missing; then the datastore is looked
up and the client is built from its config. -/
def faasrS3ClientInit (workflowData : WorkflowData)
    (_accessKey _secretKey : String) :
    Except S3ClientInitializationError FaaSrS3ClientState :=
  match workflowData.dataStores with
  | none => .error (.keyError "DataStores")
  | some stores =>
    initFromStores stores (workflowData.defaultDataStore.getD "S3")

/-- The fields of a constructed `ThrottledClient` relevant here. -/
structure ThrottledClientState where
  freeTokens : Nat
  timeout : Nat
deriving Repr, DecidableEq

/-- The default value of `ThrottledClient.__init__`'s `queue_size` parameter. -/
def throttledDefaultQueueSize : Nat := 10

/-- The default value of `ThrottledClient.__init__`'s `timeout` parameter. -/
def throttledDefaultTimeout : Nat := 20

/-- Embeds `ThrottledClient.__init__`: unlike `FaaSrS3Client`, the queue size
and timeout are constructor parameters (defaults 10 and 20). -/
def throttledClientInit (queueSize timeout : Nat) : ThrottledClientState :=
  { freeTokens := queueSize, timeout := timeout }

/-- Modelled from the spec: the `FunctionStatus` enumeration of §3
(`framework/utils/enums.py` is not in the repository snapshot). -/
inductive FunctionStatus where
  | pending
  | invoked
  | notInvoked
  | running
  | completed
  | failed
  | skipped
  | timeout
deriving Repr, DecidableEq

/-- Modelled from the spec: the final states of §3 are
`Completed, NotInvoked, Failed, Skipped, Timeout`. -/
def FunctionStatus.isFinal : FunctionStatus → Bool
  | .completed => true
  | .notInvoked => true
  | .failed => true
  | .skipped => true
  | .timeout => true
  | _ => false

/-- Modelled from the spec: the ordering of §3,
`Pending < {Invoked, NotInvoked} < Running < {Completed, Failed, Skipped,
Timeout}`, as a numeric level. -/
def FunctionStatus.level : FunctionStatus → Nat
  | .pending => 0
  | .invoked => 1
  | .notInvoked => 1
  | .running => 2
  | .completed => 3
  | .failed => 3
  | .skipped => 3
  | .timeout => 3

/-- Modelled from the spec: the mutable fields of a `FaaSrFunction` agent
needed by the claims (`framework/faasr_function.py` is not in the repository
snapshot): its identity, workflow name, current status, and the possibly-null
set of downstream invocations extracted from its logs. -/
structure FaaSrFunction where
  functionName : String
  workflowName : String
  status : FunctionStatus
  invocations : Option (List String)
deriving Repr, DecidableEq

/-- Modelled from the spec: `FaaSrFunction.set_status`.  Per §4.3 "writes take
the lock and overwrite", and per the test suite
(`test_set_status_all_values` sets every status value from any prior value),
the setter overwrites the stored status unconditionally. -/
def FaaSrFunction.setStatus (f : FaaSrFunction) (s : FunctionStatus) :
    FaaSrFunction :=
  { f with status := s }

/-- Modelled from the spec: the `InvocationStatus` result type of the workflow
runner's invocation resolution (`framework/utils/enums.py` is not in the
repository snapshot). -/
inductive InvocationStatus where
  | invoked
  | notInvoked
  | pending
deriving Repr, DecidableEq

/-- Modelled from the spec: `WorkflowRunner._get_invocation_status` — a parent
whose `invocations` is null has a pending decision; otherwise the decision is
`Invoked` exactly when the child's name is in the parent's invocation set. -/
def getInvocationStatus (invoker : FaaSrFunction) (functionName : String) :
    InvocationStatus :=
  match invoker.invocations with
  | none => .pending
  | some invs => if functionName ∈ invs then .invoked else .notInvoked

/-- Modelled from the spec: the parent loop of
`WorkflowRunner._check_invocation_status` (§4.4): return `Invoked` as soon as
some parent's invocation set contains the child; a parent with a null set is
skipped but remembered; after the loop, `Pending` if such a parent was seen
and `NotInvoked` otherwise. -/
def checkInvocationLoop (functionName : String) :
    List FaaSrFunction → Bool → InvocationStatus
  | [], sawPending => if sawPending then .pending else .notInvoked
  | p :: rest, sawPending =>
    match getInvocationStatus p functionName with
    | .invoked => .invoked
    | .pending => checkInvocationLoop functionName rest true
    | .notInvoked => checkInvocationLoop functionName rest sawPending

/-- Modelled from the spec: `WorkflowRunner._iter_ranks` — a function of rank
1 yields its bare name, a function of rank K > 1 yields `name(1)...name(K)`
(tested in `test_iter_ranks`). -/
def iterRanks (name : String) (rank : Nat) : List String :=
  if rank ≤ 1 then [name]
  else (List.range rank).map (fun i => name ++ "(" ++ toString (i + 1) ++ ")")

/-- Lookup of an agent in the runner's functions map by identity. -/
def findFunction (functions : List FaaSrFunction) (name : String) :
    Option FaaSrFunction :=
  functions.find? (fun f => f.functionName = name)

/-- Modelled from the spec: the parent agents consulted by invocation
resolution for a pending child — `reverse_adj[child]` expanded over the
parents' ranks, looked up in the functions map. -/
def parentAgents (functions : List FaaSrFunction)
    (reverseAdj : String → List String) (ranks : String → Nat)
    (name : String) : List FaaSrFunction :=
  ((reverseAdj name).flatMap (fun p => iterRanks p (ranks p))).filterMap
    (findFunction functions)

/-- Modelled from the spec: `WorkflowRunner._check_invocation_status` for a
pending child agent. -/
def checkInvocationStatus (functions : List FaaSrFunction)
    (reverseAdj : String → List String) (ranks : String → Nat)
    (f : FaaSrFunction) : InvocationStatus :=
  checkInvocationLoop f.functionName
    (parentAgents functions reverseAdj ranks f.functionName) false

/-- Modelled from the spec: `WorkflowRunner._cascade_failure` (§4.4) — every
agent whose status is not final is set to `Skipped` via `set_status`; agents
already in a final state are not touched (tested in `test_cascade_failure`). -/
def cascadeFailure (functions : List FaaSrFunction) : List FaaSrFunction :=
  functions.map (fun f => if f.status.isFinal then f else f.setStatus .skipped)

/-- `p` is a leading segment of `l` (character-level startswith). -/
def leadsWith : List Char → List Char → Bool
  | [], _ => true
  | _ :: _, [] => false
  | a :: as, b :: bs => a = b && leadsWith as bs

/-- The maximal run of non-whitespace characters at the head of the list (the
regex fragment matched by a `\S+` capture, cut at its left end). -/
def takeNonWhitespace : List Char → List Char
  | [] => []
  | c :: cs => if c.isWhitespace then [] else c :: takeNonWhitespace cs

/-- Modelled from the spec: the literal text whose occurrences mark an
invocation — `Successfully invoked: <workflow_name>-` with the workflow name
taken verbatim (§4.3, §6; `framework/faasr_function.py` is not in the
repository snapshot). -/
def invokedMarker (wf : List Char) : List Char :=
  "Successfully invoked: ".data ++ wf ++ ['-']

/-- Modelled from the spec: a captured suffix has "any leading
`workflow_name-` stripped" (§4.3). -/
def stripWfDash (wf suffix : List Char) : List Char :=
  if leadsWith (wf ++ ['-']) suffix then suffix.drop (wf.length + 1)
  else suffix

/-- Modelled from the spec: the invocation identity matched at the head of
`text`, if any — the marker must lead, followed by a non-empty non-whitespace
suffix, which is then stripped of a redundant workflow-name lead. -/
def matchInvocationAt (wf text : List Char) : Option (List Char) :=
  if leadsWith (invokedMarker wf) text then
    match takeNonWhitespace (text.drop (invokedMarker wf).length) with
    | [] => none
    | s => some (stripWfDash wf s)
  else none

/-- Modelled from the spec: scan the log text position by position and collect
the invocation identity of every occurrence of the marker pattern. -/
def extractInvocationsAux (wf : List Char) : List Char → List (List Char)
  | [] => []
  | c :: rest =>
    match matchInvocationAt wf (c :: rest) with
    | some name => name :: extractInvocationsAux wf rest
    | none => extractInvocationsAux wf rest

/-- Modelled from the spec: `FaaSrFunction._extract_invocations` — the
deduplicated set of invocation identities occurring in the log text (§4.3). -/
def extractInvocations (wf logText : String) : List String :=
  ((extractInvocationsAux wf.data logText.data).map String.mk).dedup

/-- Split a character stream into lines at newline characters (accumulator is
the current line, reversed). -/
def splitLinesAux (cur : List Char) : List Char → List (List Char)
  | [] => [cur.reverse]
  | c :: rest =>
    if c = '\n' then cur.reverse :: splitLinesAux [] rest
    else splitLinesAux (c :: cur) rest

/-- Split a character stream into lines at newline characters. -/
def splitLines (cs : List Char) : List (List Char) := splitLinesAux [] cs

/-- Modelled from the spec: a line beginning an entry matches
`^\[\d+(\.\d+)?\]` — an opening bracket, one or more digits, an optional dot
with one or more digits, and a closing bracket (§4.2, §6). -/
def isLogHeader (l : List Char) : Bool :=
  match l with
  | '[' :: rest =>
    (match rest with
     | d :: _ => d.isDigit
     | [] => false) &&
    (match rest.dropWhile Char.isDigit with
     | ']' :: _ => true
     | '.' :: rest2 =>
       (match rest2 with
        | d :: _ => d.isDigit
        | [] => false) &&
       (match rest2.dropWhile Char.isDigit with
        | ']' :: _ => true
        | _ => false)
     | _ => false)
  | _ => false

/-- Join the lines of one log entry back into a single text with newline
separators. -/
def joinLines : List (List Char) → List Char
  | [] => []
  | [l] => l
  | l :: ls => l ++ '\n' :: joinLines ls

/-- Modelled from the spec: the grouping pass of `FaaSrFunctionLogger`'s log
parsing once an entry has started — `cur` holds the reversed lines of the
entry being accumulated; a line matching the timestamp grammar closes the
current entry and starts a new one, any other line is a continuation of the
current entry, and the end of input closes the last entry. -/
def parseGroupsAux (cur : List (List Char)) :
    List (List Char) → List (List Char)
  | [] => [joinLines cur.reverse]
  | l :: rest =>
    if isLogHeader l then joinLines cur.reverse :: parseGroupsAux [l] rest
    else parseGroupsAux (l :: cur) rest

/-- Modelled from the spec: the grouping step of log parsing (§4.2) — each
line matching the timestamp grammar starts a new entry and takes all following
non-matching lines as its continuation; lines before the first matching line
belong to no entry. -/
def parseLogsFrom : List (List Char) → List (List Char)
  | [] => []
  | l :: rest =>
    if isLogHeader l then parseGroupsAux [l] rest
    else parseLogsFrom rest

/-- Modelled from the spec: the log-parsing function of the tailer
(`FaaSrFunctionLogger._get_logs`; `framework/faasr_function_logger.py` is not
in the repository snapshot): split the fetched text on lines beginning with a
bracketed float timestamp and group continuation lines with their entry;
empty input yields no entries. -/
def parseLogs (content : String) : List String :=
  (parseLogsFrom (splitLines content.data)).map String.mk

/-! ## Claim theorems -/

/-- C1: the claim states that when no token becomes free within the wait
budget, the call fails with the accessor's Busy store error.  The code instead
lets the standard-library `queue.Empty` raised by
`queue.Queue.get(timeout=...)` escape `_call` uncaught: with an exhausted pool
both `object_exists` and `get_object` surface `queue.Empty`, which is not an
`S3ClientError` of any message.  This evaluates the embedded code at the
failing input. -/
theorem c1_token_wait_timeout_raises_queue_empty :
    ∀ (client : BotoS3Client) (key : String),
      faasrObjectExists 0 client key = (.error .queueEmptyExc, 0) ∧
      faasrGetObject 0 client key = (.error .queueEmptyExc, 0) ∧
      ∀ m : String, PyException.queueEmptyExc ≠ PyException.s3ClientError m := by
  intro client key
  refine ⟨rfl, rfl, ?_⟩
  intro m h
  exact PyException.noConfusion h

/-- C2: a call to `object_exists` or `get_object` that acquires a token
removes exactly one token from the pool for the duration of the backend
request, and the token count after the call equals the count before it, on
normal and exceptional returns alike. -/
theorem c2_token_acquired_and_returned_on_all_paths (freeTokens : Nat)
    (h : 0 < freeTokens) :
    tokensDuringRequest freeTokens = some (freeTokens - 1) ∧
    (∀ (α : Type) (inner : Except PyException α),
      (callWithTokens freeTokens inner).2 = freeTokens) ∧
    ∀ (client : BotoS3Client) (key : String),
      (faasrObjectExists freeTokens client key).2 = freeTokens ∧
      (faasrGetObject freeTokens client key).2 = freeTokens := by
  obtain ⟨n, rfl⟩ : ∃ n, freeTokens = n + 1 :=
    ⟨freeTokens - 1, (Nat.succ_pred_eq_of_pos h).symm⟩
  exact ⟨rfl, fun _ _ => rfl, fun _ _ => ⟨rfl, rfl⟩⟩

/-- C2 witness: with the default pool of 10 tokens, one token is held during
the request and the pool is back to 10 afterwards, both for a successful inner
call and for one that raises. -/
theorem c2_token_acquired_and_returned_on_all_paths_witness :
    tokensDuringRequest 10 = some 9 ∧
    (callWithTokens 10 (Except.ok "body" : Except PyException String)).2 = 10 ∧
    (callWithTokens 10
      (Except.error (PyException.s3ClientError "Not Found") :
        Except PyException String)).2 = 10 := by
  refine ⟨(c2_token_acquired_and_returned_on_all_paths 10 (by decide)).1, ?_, ?_⟩
  · exact (c2_token_acquired_and_returned_on_all_paths 10 (by decide)).2.1 String _
  · exact (c2_token_acquired_and_returned_on_all_paths 10 (by decide)).2.1 String _

/-- C5 counterexample: the claim states that no status update — including via
`FaaSrFunction.set_status` — moves a status that is already final.  But
`set_status` overwrites unconditionally, so an agent whose status is the final
`Completed` is moved back to the strictly earlier `Pending` by a single
`set_status` call. -/
theorem c5_set_status_regresses_from_final :
    ((FaaSrFunction.mk "f1" "wf" .completed none).setStatus .pending).status =
        FunctionStatus.pending ∧
    FunctionStatus.isFinal .completed = true ∧
    FunctionStatus.level .pending < FunctionStatus.level .completed := by
  exact ⟨rfl, rfl, by decide⟩

/-- C5 amended: `FaaSrFunction.set_status` overwrites the stored status
unconditionally — the written status always becomes the observed status, even
when this regresses the ordering or leaves a final state — and it changes no
other field of the agent. -/
theorem c5_set_status_overwrites (f : FaaSrFunction) (s : FunctionStatus) :
    (f.setStatus s).status = s ∧
    (f.setStatus s).functionName = f.functionName ∧
    (f.setStatus s).workflowName = f.workflowName ∧
    (f.setStatus s).invocations = f.invocations :=
  ⟨rfl, rfl, rfl, rfl⟩

/-- C7: the failure cascade maps every agent whose status is not final to the
same agent with status `Skipped` (all other fields unchanged), and returns
every agent already in a final state untouched. -/
theorem c7_cascade_skips_exactly_nonfinal (fs : List FaaSrFunction) :
    List.Forall₂ (fun f g =>
      (f.status.isFinal = true → g = f) ∧
      (f.status.isFinal = false →
        g.status = FunctionStatus.skipped ∧
        g.functionName = f.functionName ∧
        g.workflowName = f.workflowName ∧
        g.invocations = f.invocations))
      fs (cascadeFailure fs) := by
  induction fs with
  | nil => exact List.Forall₂.nil
  | cons f rest ih =>
    refine List.Forall₂.cons ?_ ih
    by_cases h : f.status.isFinal
    · simp [cascadeFailure, h]
    · simp [cascadeFailure, h, FaaSrFunction.setStatus]

/-- C7 witness: the cascade applied to the test scenario — one `Failed`, one
`Pending`, one `Completed` agent — relates as the theorem states. -/
theorem c7_cascade_skips_exactly_nonfinal_witness :
    List.Forall₂ (fun f g =>
      (f.status.isFinal = true → g = f) ∧
      (f.status.isFinal = false →
        g.status = FunctionStatus.skipped ∧
        g.functionName = f.functionName ∧
        g.workflowName = f.workflowName ∧
        g.invocations = f.invocations))
      [FaaSrFunction.mk "func1" "wf" .failed none,
       FaaSrFunction.mk "func2" "wf" .pending none,
       FaaSrFunction.mk "func3" "wf" .completed none]
      (cascadeFailure
        [FaaSrFunction.mk "func1" "wf" .failed none,
         FaaSrFunction.mk "func2" "wf" .pending none,
         FaaSrFunction.mk "func3" "wf" .completed none]) :=
  c7_cascade_skips_exactly_nonfinal _

/-- A `_get_object` failure message marking the missing-object case. -/
def isNotFoundMessage (m : String) : Bool :=
  leadsWith "Object does not exist: ".data m.data

/-- A `_get_object` failure message marking the other-backend-failure cases. -/
def isBackendErrMessage (m : String) : Bool :=
  leadsWith "boto3 client error getting object: ".data m.data ||
  leadsWith "Unhandled error getting object: ".data m.data

theorem leadsWith_self_append : ∀ (a b : List Char), leadsWith a (a ++ b) = true
  | [], _ => rfl
  | c :: cs, b => by simp [leadsWith, leadsWith_self_append cs b]

theorem leadsWith_head_eq {a b : Char} {as bs l : List Char}
    (ha : leadsWith (a :: as) l = true) (hb : leadsWith (b :: bs) l = true) :
    a = b := by
  cases l with
  | nil => simp [leadsWith] at ha
  | cons c cs =>
    simp [leadsWith] at ha hb
    exact ha.1.trans hb.1.symm

theorem leadsWith_ne_head_append {a b : Char} (as bs tail : List Char)
    (h : a ≠ b) : leadsWith (a :: as) ((b :: bs) ++ tail) = false := by
  simp [List.cons_append, leadsWith, h]

theorem isNotFoundMessage_notFound (msg : String) :
    isNotFoundMessage ("Object does not exist: " ++ msg) = true := by
  unfold isNotFoundMessage
  rw [String.data_append]
  exact leadsWith_self_append _ _

theorem isBackendErrMessage_boto (msg : String) :
    isBackendErrMessage ("boto3 client error getting object: " ++ msg) = true := by
  unfold isBackendErrMessage
  rw [String.data_append, leadsWith_self_append, Bool.true_or]

theorem isBackendErrMessage_unhandled (msg : String) :
    isBackendErrMessage ("Unhandled error getting object: " ++ msg) = true := by
  unfold isBackendErrMessage
  rw [String.data_append, leadsWith_self_append, Bool.or_true]

theorem isBackendErrMessage_notFound (msg : String) :
    isBackendErrMessage ("Object does not exist: " ++ msg) = false := by
  unfold isBackendErrMessage
  rw [String.data_append]
  rw [show "Object does not exist: ".data =
    'O' :: "bject does not exist: ".data from rfl]
  rw [show "boto3 client error getting object: ".data =
    'b' :: "oto3 client error getting object: ".data from rfl]
  rw [show "Unhandled error getting object: ".data =
    'U' :: "nhandled error getting object: ".data from rfl]
  rw [leadsWith_ne_head_append _ _ _ (by decide),
    leadsWith_ne_head_append _ _ _ (by decide)]
  rfl

theorem isNotFoundMessage_boto (msg : String) :
    isNotFoundMessage ("boto3 client error getting object: " ++ msg) = false := by
  unfold isNotFoundMessage
  rw [String.data_append]
  rw [show "Object does not exist: ".data =
    'O' :: "bject does not exist: ".data from rfl]
  rw [show "boto3 client error getting object: ".data =
    'b' :: "oto3 client error getting object: ".data from rfl]
  exact leadsWith_ne_head_append _ _ _ (by decide)

theorem isNotFoundMessage_unhandled (msg : String) :
    isNotFoundMessage ("Unhandled error getting object: " ++ msg) = false := by
  unfold isNotFoundMessage
  rw [String.data_append]
  rw [show "Object does not exist: ".data =
    'O' :: "bject does not exist: ".data from rfl]
  rw [show "Unhandled error getting object: ".data =
    'U' :: "nhandled error getting object: ".data from rfl]
  exact leadsWith_ne_head_append _ _ _ (by decide)

theorem notFound_backend_exclusive (m : String) :
    ¬(isNotFoundMessage m = true ∧ isBackendErrMessage m = true) := by
  rintro ⟨h1, h2⟩
  rw [isNotFoundMessage,
    show "Object does not exist: ".data =
      'O' :: "bject does not exist: ".data from rfl] at h1
  rw [isBackendErrMessage, Bool.or_eq_true] at h2
  rcases h2 with h2 | h2
  · rw [show "boto3 client error getting object: ".data =
      'b' :: "oto3 client error getting object: ".data from rfl] at h2
    exact absurd (leadsWith_head_eq h1 h2) (by decide)
  · rw [show "Unhandled error getting object: ".data =
      'U' :: "nhandled error getting object: ".data from rfl] at h2
    exact absurd (leadsWith_head_eq h1 h2) (by decide)

/-- C3: `get_object` on a missing object (`NoSuchKey` from the backend) fails
with the `S3ClientError` whose message marks the missing-object case, any
other backend `ClientError` or unhandled exception fails with an
`S3ClientError` whose message marks the backend-failure case, and the two
message kinds are mutually exclusive, so a caller can distinguish them. -/
theorem c3_get_object_distinguishes_notfound_from_backend
    (client : BotoS3Client) (key : String) (code msg : String) :
    (client.getObject key = .clientError "NoSuchKey" msg →
      innerGetObject client key =
        .error (.s3ClientError ("Object does not exist: " ++ msg)) ∧
      isNotFoundMessage ("Object does not exist: " ++ msg) = true ∧
      isBackendErrMessage ("Object does not exist: " ++ msg) = false) ∧
    (client.getObject key = .clientError code msg → code ≠ "NoSuchKey" →
      innerGetObject client key =
        .error (.s3ClientError ("boto3 client error getting object: " ++ msg)) ∧
      isBackendErrMessage ("boto3 client error getting object: " ++ msg) = true ∧
      isNotFoundMessage ("boto3 client error getting object: " ++ msg) = false) ∧
    (client.getObject key = .exn msg →
      innerGetObject client key =
        .error (.s3ClientError ("Unhandled error getting object: " ++ msg)) ∧
      isBackendErrMessage ("Unhandled error getting object: " ++ msg) = true ∧
      isNotFoundMessage ("Unhandled error getting object: " ++ msg) = false) ∧
    ∀ m : String, ¬(isNotFoundMessage m = true ∧ isBackendErrMessage m = true) := by
  refine ⟨?_, ?_, ?_, notFound_backend_exclusive⟩
  · intro hres
    refine ⟨?_, isNotFoundMessage_notFound msg, isBackendErrMessage_notFound msg⟩
    unfold innerGetObject
    rw [hres]
    rfl
  · intro hres hcode
    refine ⟨?_, isBackendErrMessage_boto msg, isNotFoundMessage_boto msg⟩
    unfold innerGetObject
    rw [hres]
    simp [hcode]
  · intro hres
    refine ⟨?_, isBackendErrMessage_unhandled msg, isNotFoundMessage_unhandled msg⟩
    unfold innerGetObject
    rw [hres]

/-- C3 witness: at a backend answering `NoSuchKey` for the get and at one
answering a `403`, the two error kinds are produced and distinguished. -/
theorem c3_get_object_distinguishes_notfound_from_backend_witness :
    (innerGetObject
        (BotoS3Client.mk (fun _ => .ok ())
          (fun _ => .clientError "NoSuchKey" "Not Found")) "k" =
      .error (.s3ClientError ("Object does not exist: " ++ "Not Found")) ∧
      isNotFoundMessage ("Object does not exist: " ++ "Not Found") = true ∧
      isBackendErrMessage ("Object does not exist: " ++ "Not Found") = false) ∧
    (innerGetObject
        (BotoS3Client.mk (fun _ => .ok ())
          (fun _ => .clientError "403" "Forbidden")) "k" =
      .error (.s3ClientError
        ("boto3 client error getting object: " ++ "Forbidden")) ∧
      isBackendErrMessage
        ("boto3 client error getting object: " ++ "Forbidden") = true ∧
      isNotFoundMessage
        ("boto3 client error getting object: " ++ "Forbidden") = false) := by
  constructor
  · exact (c3_get_object_distinguishes_notfound_from_backend
      (BotoS3Client.mk (fun _ => .ok ())
        (fun _ => .clientError "NoSuchKey" "Not Found")) "k" "NoSuchKey"
      "Not Found").1 rfl
  · exact (c3_get_object_distinguishes_notfound_from_backend
      (BotoS3Client.mk (fun _ => .ok ())
        (fun _ => .clientError "403" "Forbidden")) "k" "403"
      "Forbidden").2.1 rfl (by decide)

/-- A client built from any datastore config has the class-constant pool size
and timeout. -/
theorem initFromConfig_ok_fixed {cfg : DataStoreConfig}
    {st : FaaSrS3ClientState} :
    initFromConfig cfg = .ok st →
    st.freeTokens = defaultQueueSize ∧ st.timeout = defaultTimeout := by
  unfold initFromConfig
  rcases cfg.region with _ | region
  · intro h
    exact absurd h (by simp)
  · rcases cfg.bucket with _ | bucket
    · intro h
      exact absurd h (by simp)
    · intro h
      cases h
      exact ⟨rfl, rfl⟩

/-- A client built from any datastore table has the class-constant pool size
and timeout. -/
theorem initFromStores_ok_fixed {stores : List (String × DataStoreConfig)}
    {name : String} {st : FaaSrS3ClientState} :
    initFromStores stores name = .ok st →
    st.freeTokens = defaultQueueSize ∧ st.timeout = defaultTimeout := by
  unfold initFromStores
  rcases lookupStore stores name with _ | cfg
  · intro h
    exact absurd h (by simp)
  · intro h
    exact initFromConfig_ok_fixed h

/-- Every successfully constructed `FaaSrS3Client` has the class-constant
pool size and timeout: the constructor offers no input to change them. -/
theorem faasrS3ClientInit_ok_fixed {wd : WorkflowData} {ak sk : String}
    {st : FaaSrS3ClientState} :
    faasrS3ClientInit wd ak sk = .ok st →
    st.freeTokens = defaultQueueSize ∧ st.timeout = defaultTimeout := by
  unfold faasrS3ClientInit
  rcases wd.dataStores with _ | stores
  · intro h
    exact absurd h (by simp)
  · intro h
    exact initFromStores_ok_fixed h

/-- C4 counterexample: the claim states that for some constructor input the
accessor `FaaSrS3Client` can be created with a pool size other than 10.  No
such input exists: every successful construction, over all workflow payloads
and credential strings, yields the fixed pool of 10 tokens. -/
theorem c4_no_input_changes_pool_size :
    ¬ ∃ (wd : WorkflowData) (ak sk : String) (st : FaaSrS3ClientState),
        faasrS3ClientInit wd ak sk = .ok st ∧ st.freeTokens ≠ 10 := by
  rintro ⟨wd, ak, sk, st, hok, hne⟩
  exact hne (faasrS3ClientInit_ok_fixed hok).1

/-- C4 amended: `FaaSrS3Client`'s token pool size and wait budget are class
constants — 10 tokens and 20 seconds, with no constructor parameter to change
them; only the generic `ThrottledClient` takes the pool size and the wait
budget as constructor parameters (defaults 10 and 20), and it can be created
with a pool size other than 10. -/
theorem c4_pool_fixed_for_accessor_configurable_for_throttled :
    (∀ (wd : WorkflowData) (ak sk : String) (st : FaaSrS3ClientState),
      faasrS3ClientInit wd ak sk = .ok st →
        st.freeTokens = defaultQueueSize ∧ st.timeout = defaultTimeout) ∧
    defaultQueueSize = 10 ∧ defaultTimeout = 20 ∧
    (throttledClientInit throttledDefaultQueueSize
      throttledDefaultTimeout).freeTokens = 10 ∧
    (throttledClientInit 5 throttledDefaultTimeout).freeTokens = 5 ∧
    (5 : Nat) ≠ 10 := by
  exact ⟨fun _ _ _ _ h => faasrS3ClientInit_ok_fixed h, rfl, rfl, rfl, rfl,
    by decide⟩

/-- An example workflow payload with the default datastore named explicitly,
mirroring the test fixture. -/
def wdExample : WorkflowData :=
  { defaultDataStore := some "S3"
    dataStores := some [("S3",
      { endpoint := some "http://localhost:5000"
        bucket := some "testing"
        region := some "us-east-1" })] }

/-- The client state the example payload constructs. -/
def stExample : FaaSrS3ClientState :=
  { endpointUrl := some "http://localhost:5000"
    regionName := "us-east-1"
    bucketName := "testing"
    freeTokens := 10
    timeout := 20 }

/-- C4 witness: the example payload constructs successfully and the theorem
yields the fixed pool of 10 and timeout of 20; the throttled wrapper accepts a
pool size of 5. -/
theorem c4_pool_fixed_for_accessor_configurable_for_throttled_witness :
    faasrS3ClientInit wdExample "test_access_key" "test_secret_key" =
      .ok stExample ∧
    stExample.freeTokens = 10 ∧ stExample.timeout = 20 ∧
    (throttledClientInit 5 throttledDefaultTimeout).freeTokens = 5 := by
  have hinit : faasrS3ClientInit wdExample "test_access_key" "test_secret_key" =
      .ok stExample := rfl
  have h := c4_pool_fixed_for_accessor_configurable_for_throttled.1
    wdExample "test_access_key" "test_secret_key" stExample hinit
  exact ⟨hinit, h.1, h.2,
    c4_pool_fixed_for_accessor_configurable_for_throttled.2.2.2.2.1⟩

/-- C10: a payload without the `DefaultDataStore` key does not fail for that
reason: construction falls back to the datastore named `S3`, succeeds whenever
the `DataStores` mapping has an `S3` entry carrying `Bucket` and `Region`, and
raises the `Key error` initialization failure naming `S3` when that fallback
entry is absent. -/
theorem c10_missing_default_datastore_falls_back_to_s3
    (stores : List (String × DataStoreConfig)) (cfg : DataStoreConfig)
    (b r ak sk : String) :
    (lookupStore stores "S3" = some cfg → cfg.bucket = some b →
      cfg.region = some r →
      faasrS3ClientInit
          { defaultDataStore := none, dataStores := some stores } ak sk =
        .ok { endpointUrl := if truthyOpt cfg.endpoint then cfg.endpoint
                             else none
              regionName := r
              bucketName := b
              freeTokens := defaultQueueSize
              timeout := defaultTimeout }) ∧
    (lookupStore stores "S3" = none →
      faasrS3ClientInit
          { defaultDataStore := none, dataStores := some stores } ak sk =
        .error (.keyError "S3")) := by
  constructor
  · intro hl hb hr
    show initFromStores stores "S3" = _
    unfold initFromStores
    rw [hl]
    show initFromConfig cfg = _
    unfold initFromConfig
    rw [hr, hb]
  · intro hl
    show initFromStores stores "S3" = _
    unfold initFromStores
    rw [hl]

/-- C10 witness: with `DefaultDataStore` omitted, a payload whose `DataStores`
carries an `S3` entry with bucket and region constructs successfully, and one
without the `S3` entry fails with the `Key error` naming `S3`. -/
theorem c10_missing_default_datastore_falls_back_to_s3_witness :
    faasrS3ClientInit
        { defaultDataStore := none
          dataStores := some [("S3",
            { endpoint := some "http://localhost:5000"
              bucket := some "testing"
              region := some "us-east-1" })] } "ak" "sk" =
      .ok { endpointUrl :=
              if truthyOpt (some "http://localhost:5000") then
                some "http://localhost:5000"
              else none
            regionName := "us-east-1"
            bucketName := "testing"
            freeTokens := defaultQueueSize
            timeout := defaultTimeout } ∧
    faasrS3ClientInit
        { defaultDataStore := none, dataStores := some [] } "ak" "sk" =
      .error (.keyError "S3") := by
  constructor
  · exact (c10_missing_default_datastore_falls_back_to_s3
      [("S3", { endpoint := some "http://localhost:5000",
                bucket := some "testing", region := some "us-east-1" })]
      { endpoint := some "http://localhost:5000", bucket := some "testing",
        region := some "us-east-1" } "testing" "us-east-1" "ak" "sk").1
      (by decide) rfl rfl
  · exact (c10_missing_default_datastore_falls_back_to_s3 []
      ⟨none, none, none⟩ "b" "r" "ak" "sk").2 rfl

/-- The resolution loop answers `Invoked` exactly when some parent's resolved
invocation set contains the child's name. -/
theorem checkInvocationLoop_eq_invoked (name : String) :
    ∀ (ps : List FaaSrFunction) (saw : Bool),
      (checkInvocationLoop name ps saw = .invoked ↔
        ∃ p ∈ ps, ∃ invs, p.invocations = some invs ∧ name ∈ invs)
  | [], saw => by cases saw <;> simp [checkInvocationLoop]
  | p :: rest, saw => by
    rcases hp : p.invocations with _ | invs
    · simp [checkInvocationLoop, getInvocationStatus, hp,
        checkInvocationLoop_eq_invoked name rest true]
    · by_cases hm : name ∈ invs
      · simp [checkInvocationLoop, getInvocationStatus, hp, hm]
      · simp [checkInvocationLoop, getInvocationStatus, hp, hm,
          checkInvocationLoop_eq_invoked name rest saw]

/-- The resolution loop answers `NotInvoked` exactly when no null parent was
seen so far and every remaining parent has resolved to a set without the
child's name. -/
theorem checkInvocationLoop_eq_notInvoked (name : String) :
    ∀ (ps : List FaaSrFunction) (saw : Bool),
      (checkInvocationLoop name ps saw = .notInvoked ↔
        (saw = false ∧
          ∀ p ∈ ps, ∃ invs, p.invocations = some invs ∧ name ∉ invs))
  | [], saw => by cases saw <;> simp [checkInvocationLoop]
  | p :: rest, saw => by
    rcases hp : p.invocations with _ | invs
    · simp [checkInvocationLoop, getInvocationStatus, hp,
        checkInvocationLoop_eq_notInvoked name rest true]
    · by_cases hm : name ∈ invs
      · simp [checkInvocationLoop, getInvocationStatus, hp, hm]
      · simp [checkInvocationLoop, getInvocationStatus, hp, hm,
          checkInvocationLoop_eq_notInvoked name rest saw]

/-- The resolution loop answers `Pending` exactly when no parent invoked the
child and either a null parent was already seen or some remaining parent is
null. -/
theorem checkInvocationLoop_eq_pending (name : String) :
    ∀ (ps : List FaaSrFunction) (saw : Bool),
      (checkInvocationLoop name ps saw = .pending ↔
        ((∀ p ∈ ps, ∀ invs, p.invocations = some invs → name ∉ invs) ∧
          (saw = true ∨ ∃ p ∈ ps, p.invocations = none)))
  | [], saw => by cases saw <;> simp [checkInvocationLoop]
  | p :: rest, saw => by
    rcases hp : p.invocations with _ | invs
    · simp [checkInvocationLoop, getInvocationStatus, hp,
        checkInvocationLoop_eq_pending name rest true]
    · by_cases hm : name ∈ invs
      · simp [checkInvocationLoop, getInvocationStatus, hp, hm]
      · simp [checkInvocationLoop, getInvocationStatus, hp, hm,
          checkInvocationLoop_eq_pending name rest saw]

/-- C6: invocation resolution for a pending child over the parent agents
derived from `reverse_adj` (expanded over parent ranks) returns `Invoked` iff
some parent's resolved invocation set contains the child's name, `NotInvoked`
iff every parent has resolved to a set not containing the name, and `Pending`
iff no parent invoked the child and some parent's invocation set is still
null. -/
theorem c6_invocation_resolution_characterized
    (functions : List FaaSrFunction) (reverseAdj : String → List String)
    (ranks : String → Nat) (f : FaaSrFunction) :
    (checkInvocationStatus functions reverseAdj ranks f = .invoked ↔
      ∃ p ∈ parentAgents functions reverseAdj ranks f.functionName,
        ∃ invs, p.invocations = some invs ∧ f.functionName ∈ invs) ∧
    (checkInvocationStatus functions reverseAdj ranks f = .notInvoked ↔
      ∀ p ∈ parentAgents functions reverseAdj ranks f.functionName,
        ∃ invs, p.invocations = some invs ∧ f.functionName ∉ invs) ∧
    (checkInvocationStatus functions reverseAdj ranks f = .pending ↔
      ((∀ p ∈ parentAgents functions reverseAdj ranks f.functionName,
          ∀ invs, p.invocations = some invs → f.functionName ∉ invs) ∧
        ∃ p ∈ parentAgents functions reverseAdj ranks f.functionName,
          p.invocations = none)) := by
  unfold checkInvocationStatus
  refine ⟨checkInvocationLoop_eq_invoked _ _ _, ?_, ?_⟩
  · rw [checkInvocationLoop_eq_notInvoked]
    simp
  · rw [checkInvocationLoop_eq_pending]
    simp

/-- The three invocation-resolution scenarios of the test suite: a parent
that logged `func2` resolves child `func2` to `Invoked` and child `func3` to
`NotInvoked`, and a parent whose invocations are still null leaves the child
`Pending`. -/
theorem resolution_examples :
    checkInvocationStatus
        [FaaSrFunction.mk "func1" "wf" .completed (some ["func2"])]
        (fun n => if n = "func2" ∨ n = "func3" then ["func1"] else [])
        (fun _ => 1) (FaaSrFunction.mk "func2" "wf" .pending none) =
      .invoked ∧
    checkInvocationStatus
        [FaaSrFunction.mk "func1" "wf" .completed (some ["func2"])]
        (fun n => if n = "func2" ∨ n = "func3" then ["func1"] else [])
        (fun _ => 1) (FaaSrFunction.mk "func3" "wf" .pending none) =
      .notInvoked ∧
    checkInvocationStatus
        [FaaSrFunction.mk "func1" "wf" .completed none]
        (fun n => if n = "func2" ∨ n = "func3" then ["func1"] else [])
        (fun _ => 1) (FaaSrFunction.mk "func2" "wf" .pending none) =
      .pending :=
  ⟨rfl, rfl, rfl⟩

/-- Rank expansion mirrors the test scenarios: rank 1 keeps the bare name,
rank 2 yields the two replica identities. -/
theorem iter_ranks_examples :
    iterRanks "func1" 1 = ["func1"] ∧
    iterRanks "func3" 2 = ["func3(1)", "func3(2)"] := by
  constructor <;> rfl

/-- Shifting an existential over drops of a cons list by one position. -/
theorem exists_drop_cons {α : Type} (c : α) (rest : List α)
    (P : List α → Prop) :
    (∃ n, P ((c :: rest).drop n)) ↔ P (c :: rest) ∨ ∃ n, P (rest.drop n) := by
  constructor
  · rintro ⟨n, hn⟩
    cases n with
    | zero => exact Or.inl hn
    | succ m => exact Or.inr ⟨m, by simpa using hn⟩
  · rintro (h | ⟨n, hn⟩)
    · exact ⟨0, h⟩
    · exact ⟨n + 1, by simpa using hn⟩

/-- The marker never matches at the end of the text, so no invocation is
matched there. -/
theorem matchInvocationAt_nil (wf : List Char) :
    matchInvocationAt wf [] = none := by
  unfold matchInvocationAt
  rw [show invokedMarker wf =
    'S' :: ("uccessfully invoked: ".data ++ wf ++ ['-']) from rfl]
  rfl

/-- The raw scan collects exactly the identities matched at some position of
the text. -/
theorem extractInvocationsAux_mem (wf : List Char) :
    ∀ (text cs : List Char),
      (cs ∈ extractInvocationsAux wf text ↔
        ∃ n, matchInvocationAt wf (text.drop n) = some cs)
  | [], cs => by
    simp [extractInvocationsAux, List.drop_nil, matchInvocationAt_nil]
  | c :: rest, cs => by
    rw [exists_drop_cons c rest (fun l => matchInvocationAt wf l = some cs)]
    rcases hmt : matchInvocationAt wf (c :: rest) with _ | name
    · simp [extractInvocationsAux, hmt,
        extractInvocationsAux_mem wf rest cs]
    · simp [extractInvocationsAux, hmt,
        extractInvocationsAux_mem wf rest cs, eq_comm]

/-- C8: for every workflow name (metacharacters included, since the name is
compared verbatim) and every log text, a name is extracted exactly when the
marker `Successfully invoked: <workflow_name>-` matches at some position of
the text followed by the (prefix-stripped) captured suffix; the result
carries no duplicates, and deduplicating it again changes nothing, so
re-extraction from the same logs yields the same set. -/
theorem c8_extraction_is_literal_dedup_idempotent
    (wf logText name : String) :
    (name ∈ extractInvocations wf logText ↔
      ∃ n, matchInvocationAt wf.data (logText.data.drop n) =
        some name.data) ∧
    (extractInvocations wf logText).Nodup ∧
    (extractInvocations wf logText).dedup = extractInvocations wf logText := by
  refine ⟨?_, List.nodup_dedup _, List.dedup_idem⟩
  rw [extractInvocations, List.mem_dedup, List.mem_map]
  constructor
  · rintro ⟨cs, hcs, rfl⟩
    obtain ⟨n, hn⟩ := (extractInvocationsAux_mem wf.data logText.data cs).1 hcs
    exact ⟨n, hn⟩
  · rintro ⟨n, hn⟩
    refine ⟨name.data,
      (extractInvocationsAux_mem wf.data logText.data name.data).2 ⟨n, hn⟩, ?_⟩
    cases name
    rfl

/-- Extraction on the test-fixture log with a plain workflow name. -/
theorem extraction_example_plain :
    extractInvocations "testworkflow"
      "[scheduler.py] GitHub Action: Successfully invoked: testworkflow-func1" =
      ["func1"] := by decide

/-- Extraction treats a workflow name containing underscores, dashes, dots
and parentheses verbatim. -/
theorem extraction_example_metachar_name :
    extractInvocations "my_wf.v2(x)"
      "ok Successfully invoked: my_wf.v2(x)-func1 end" = ["func1"] := by decide

/-- Extraction deduplicates repeated invocations and strips a redundant
workflow-name lead from the captured suffix. -/
theorem extraction_example_dedup_and_strip :
    extractInvocations "wf"
      "Successfully invoked: wf-wf-func1\nSuccessfully invoked: wf-wf-func1" =
      ["func1"] := by decide

/-- A well-formed entry, as a sequence of lines: a first line matching the
timestamp grammar followed by continuation lines that do not. -/
def entryWellFormedB : List (List Char) → Bool
  | [] => false
  | h :: t => isLogHeader h && t.all (fun l => !isLogHeader l)

/-- Feeding non-header lines to the grouping pass only accumulates them onto
the current entry. -/
theorem parseGroupsAux_nonheader :
    ∀ (t : List (List Char)), (∀ l ∈ t, isLogHeader l = false) →
      ∀ (cur rest : List (List Char)),
        parseGroupsAux cur (t ++ rest) = parseGroupsAux (t.reverse ++ cur) rest
  | [], _ => by intro cur rest; simp
  | l :: t, ht => by
    intro cur rest
    have hl : isLogHeader l = false := ht l (List.mem_cons_self _ _)
    have ht' : ∀ x ∈ t, isLogHeader x = false :=
      fun x hx => ht x (List.mem_cons_of_mem _ hx)
    rw [List.cons_append]
    show (if isLogHeader l then _ else parseGroupsAux (l :: cur) (t ++ rest)) = _
    rw [hl]
    simp only [Bool.false_eq_true, if_false]
    rw [parseGroupsAux_nonheader t ht' (l :: cur) rest]
    simp [List.append_assoc]

/-- Parsing the concatenation of the lines of well-formed entries recovers
exactly those entries, each joined back into its text. -/
theorem parseLogsFrom_concat_of_wellFormed :
    ∀ (entries : List (List (List Char))),
      (∀ e ∈ entries, entryWellFormedB e = true) →
      parseLogsFrom entries.flatten = entries.map joinLines
  | [], _ => rfl
  | e :: rest, hwf => by
    have he := hwf e (List.mem_cons_self _ _)
    obtain ⟨h, t, rfl⟩ : ∃ h t, e = h :: t := by
      cases e with
      | nil => exact absurd he (by simp [entryWellFormedB])
      | cons h t => exact ⟨h, t, rfl⟩
    rw [entryWellFormedB, Bool.and_eq_true] at he
    have hh : isLogHeader h = true := he.1
    have ht : ∀ l ∈ t, isLogHeader l = false := by
      intro l hl
      have := (List.all_eq_true.1 he.2) l hl
      simpa using this
    have hrest : ∀ e ∈ rest, entryWellFormedB e = true :=
      fun e he' => hwf e (List.mem_cons_of_mem _ he')
    show parseLogsFrom ((h :: t) ++ rest.flatten) = _
    rw [List.cons_append]
    show (if isLogHeader h then parseGroupsAux [h] (t ++ rest.flatten)
          else parseLogsFrom (t ++ rest.flatten)) = _
    rw [hh]
    simp only [if_true]
    rw [parseGroupsAux_nonheader t ht [h] rest.flatten]
    cases rest with
    | nil =>
      show parseGroupsAux (t.reverse ++ [h]) [] = _
      unfold parseGroupsAux
      simp [joinLines]
    | cons e' rest' =>
      have he' := hrest e' (List.mem_cons_self _ _)
      obtain ⟨h', t', rfl⟩ : ∃ h' t', e' = h' :: t' := by
        cases e' with
        | nil => exact absurd he' (by simp [entryWellFormedB])
        | cons h' t' => exact ⟨h', t', rfl⟩
      have hh' : isLogHeader h' = true := by
        rw [entryWellFormedB, Bool.and_eq_true] at he'
        exact he'.1
      show parseGroupsAux (t.reverse ++ [h]) ((h' :: t') ++ rest'.flatten) = _
      rw [List.cons_append]
      show (if isLogHeader h' then
              joinLines (t.reverse ++ [h]).reverse ::
                parseGroupsAux [h'] (t' ++ rest'.flatten)
            else parseGroupsAux (h' :: (t.reverse ++ [h])) (t' ++ rest'.flatten)) = _
      rw [hh']
      simp only [if_true]
      have htail : parseGroupsAux [h'] (t' ++ rest'.flatten) =
          ((h' :: t') :: rest').map joinLines := by
        have := parseLogsFrom_concat_of_wellFormed ((h' :: t') :: rest') hrest
        rw [show ((h' :: t') :: rest').flatten = h' :: (t' ++ rest'.flatten) by simp] at this
        rw [show parseLogsFrom (h' :: (t' ++ rest'.flatten)) =
            (if isLogHeader h' then parseGroupsAux [h'] (t' ++ rest'.flatten)
             else parseLogsFrom (t' ++ rest'.flatten)) from rfl, hh'] at this
        simpa using this
      rw [htail]
      simp [joinLines]

/-- C9: log parsing groups lines on bracketed-float-timestamp headers — each
header line starts an entry that absorbs the following non-header lines —
so parsing the concatenation of well-formed entries returns exactly those
entries; empty input yields no entries; and a blob with two timestamped
headers whose second entry continues on a following line parses to exactly
two entries. -/
theorem c9_log_parsing_groups_on_timestamp_headers :
    parseLogs "" = [] ∧
    (∀ (entries : List (List (List Char))),
      (∀ e ∈ entries, entryWellFormedB e = true) →
      parseLogsFrom entries.flatten = entries.map joinLines) ∧
    parseLogs "[1.0] a\n[2.0] b\nb2" = ["[1.0] a", "[2.0] b\nb2"] := by
  exact ⟨by decide, parseLogsFrom_concat_of_wellFormed, by decide⟩

/-- C9 witness: applying the grouping theorem to the two concrete well-formed
entries of the spec's round-trip example. -/
theorem c9_log_parsing_groups_on_timestamp_headers_witness :
    parseLogsFrom [["[1.0] a".data], ["[2.0] b".data, "b2".data]].flatten =
      [["[1.0] a".data], ["[2.0] b".data, "b2".data]].map joinLines ∧
    parseLogs "" = [] := by
  constructor
  · exact c9_log_parsing_groups_on_timestamp_headers.2.1
      [["[1.0] a".data], ["[2.0] b".data, "b2".data]] (by decide)
  · exact c9_log_parsing_groups_on_timestamp_headers.1

end FaaSrIT
